import Mathlib

/-!
Verification of the IV formula parser and the projection helpers of
`linearmodels/iv/_utility.py`.

The Python strings of the source are modelled as Lean `String`s, but every
string operation the source performs (`str.strip`, `str.split` on a
one-character separator, `in`, indexing, slicing) is embedded explicitly on
the `data : List Char` view, so that all definitions are executable and all
proofs reduce to list reasoning.  Machine behaviour that the source relies
on is reproduced faithfully, including the `IndexError` raised by `s[0]` on
an empty string and the `ValueError` raised by unpacking a list of the
wrong length.
-/

deriving instance DecidableEq for Except

namespace LM

/-- The characters Python's `str.strip()` removes (`string.whitespace`,
restricted to the one-byte characters; formulas are ASCII). -/
def isSpace (c : Char) : Bool :=
  c = ' ' || c = '\t' || c = '\n' || c = '\r' || c = '\x0b' || c = '\x0c'

/-- `str.strip()` on the character list: drop leading then trailing
whitespace. -/
def pystripList (l : List Char) : List Char :=
  (l.dropWhile isSpace).rdropWhile isSpace

/-- Python `s.strip()`. -/
def pystrip (s : String) : String := ⟨pystripList s.data⟩

/-- `str.split(sep)` for a one-character separator on the character list:
split at every occurrence, keeping empty pieces (`"".split(sep) == [""]`,
`"a~~b".split("~") == ["a", "", "b"]`). -/
def splitCharList (sep : Char) : List Char → List (List Char)
  | [] => [[]]
  | c :: rest =>
    let r := splitCharList sep rest
    if c = sep then [] :: r
    else
      match r with
      | [] => [[c]]
      | h :: t => (c :: h) :: t

/-- Python `s.split(sep)` for the one-character separators `~`, `[`, `]`
used by the source. -/
def pysplit (sep : Char) (s : String) : List String :=
  (splitCharList sep s.data).map String.mk

/-- Python `c in s` for a one-character `c` (used for `"[" in blocks[1]`
and `"]" in blocks[2]`). -/
def strContains (s : String) (c : Char) : Bool := s.data.contains c

/-- Python `s[-1]` as an option (used to model `exog[-1]`). -/
def strLast (s : String) : Option Char := s.data.getLast?

/-- Python `s[:-1]`: the string without its final character. -/
def dropLastStr (s : String) : String := ⟨s.data.dropLast⟩

/-- The four string components `_parse` stores in `self._components`
(keys `dependent`, `exog`, `endog`, `instruments`). -/
structure Components where
  dependent : String
  exog : String
  endog : String
  instruments : String
deriving DecidableEq

/-- The exceptions `_parse` can raise: `ValueError` (explicitly raised, or
raised by tuple unpacking) and `IndexError` (raised by indexing an empty
string). -/
inductive ParseError where
  | valueError (msg : String)
  | indexError (msg : String)
deriving DecidableEq

/-- Message of `raise ValueError` in the `else` branch of `_parse`
(lines 123-124 of the source, typo included). -/
def sepMsg : String := "formula contains more then 2 separators (~)"

/-- Message of `raise ValueError` when the bracket delimiters are missing
(lines 99-104 of the source; Python concatenates the adjacent literals). -/
def bracketMsg : String :=
  "formula not understood. Endogenous variables and instruments must be segregated in a block that starts with [ and ends with ]."

/-- Message of `raise ValueError` for an endogenous block with a leading or
trailing `+` (lines 108-112), with the block formatted in. -/
def endogMsg (b : String) : String :=
  "endogenous block must not start or end with +. This block was: " ++ b

/-- Message of `raise ValueError` for an instrument block with a leading or
trailing `+` (lines 113-117), with the block formatted in. -/
def instrMsg (b : String) : String :=
  "instrument block must not start or end with +. This block was: " ++ b

/-- Message of the `ValueError` Python raises when `a, b = lst` receives a
list with more than two elements (possible when the middle or last block
holds several `[` or `]`). -/
def unpackMsg : String := "too many values to unpack (expected 2)"

/-- `b[0] == "+" or b[-1] == "+"` as executed by Python: an `IndexError`
when `b` is empty, otherwise the Boolean answer. -/
def plusEdge (b : String) : Except ParseError Bool :=
  match b.data with
  | [] => .error (.indexError "string index out of range")
  | c :: rest => .ok (c == '+' || (c :: rest).getLast? == some '+')

/-- Line 121 of the source: when the merged expression is non-empty and
ends in `+`, replace it by `exog[:-1].strip()` — drop the final character
and strip the whitespace this uncovers, once. -/
def exogStripOne (e : String) : String :=
  if e ≠ "" then (if strLast e = some '+' then pystrip (dropLastStr e) else e) else e

/-- Line 122 of the source: `"0" if not exog else "0 + " + exog`. -/
def exogSentinel (e : String) : String :=
  if e = "" then "0" else "0 + " ++ e

/-- The final exogenous value of the three-block branch (lines 118-122):
append the suffix when non-empty (plain concatenation, no separator),
apply the single trailing-`+` strip, then the zero-term sentinel rule. -/
def exogFinal (pre suf : String) : String :=
  exogSentinel (exogStripOne (if suf ≠ "" then pre ++ suf else pre))

/-- The `len(blocks) == 3` branch of `IVFormulaParser._parse`
(lines 97-122), applied to the three already-stripped blocks.  The order of
effects matches the source: bracket check, unpack of the middle block on
`[`, unpack of the last block on `]`, the `+`-edge check of the endogenous
block, the `+`-edge check of the instrument block, then the exogenous
merge. -/
def parse3 (b0 b1 b2 : String) : Except ParseError Components :=
  if !(strContains b1 '[') || !(strContains b2 ']') then
    .error (.valueError bracketMsg)
  else
    match (pysplit '[' b1).map pystrip with
    | [exogPre, en] =>
      match (pysplit ']' b2).map pystrip with
      | [ins, exogSuf] =>
        match plusEdge en with
        | .error e => .error e
        | .ok true => .error (.valueError (endogMsg en))
        | .ok false =>
          match plusEdge ins with
          | .error e => .error e
          | .ok true => .error (.valueError (instrMsg ins))
          | .ok false =>
            .ok ⟨"0 + " ++ pystrip b0, exogFinal exogPre exogSuf, en, ins⟩
      | _ => .error (.valueError unpackMsg)
    | _ => .error (.valueError unpackMsg)

/-- `IVFormulaParser._parse` (lines 89-131): split the stripped formula on
`~`; two blocks give the `dep ~ exog` shape with the zero sentinel for the
endogenous and instrument components; three blocks are handled by the
bracketed branch after stripping each block; any other count raises the
separator `ValueError`.  Every successful parse stores the dependent
component with the `"0 + "` sentinel prefix. -/
def parseFormula (formula : String) : Except ParseError Components :=
  match pysplit '~' (pystrip formula) with
  | [b0, b1] => .ok ⟨"0 + " ++ pystrip b0, pystrip b1, "0", "0"⟩
  | [b0, b1, b2] => parse3 (pystrip b0) (pystrip b1) (pystrip b2)
  | _ => .error (.valueError sepMsg)

/-- The exogenous merge exactly as the claim words it: concatenate prefix
and suffix; if the combined expression is non-empty and ends with `+`,
strip exactly that one trailing `+` character (nothing else); then apply
the zero-term sentinel rule.  Stated for comparison with `exogFinal`, the
computation the source performs. -/
def exogFinalClaimLit (pre suf : String) : String :=
  exogSentinel
    (if pre ++ suf ≠ "" ∧ strLast (pre ++ suf) = some '+' then dropLastStr (pre ++ suf)
     else pre ++ suf)

/-- The exogenous merge with the amended strip step: concatenate prefix
and suffix; if the combined expression is non-empty and ends with `+`,
strip exactly that one trailing `+` character together with the whitespace
this uncovers (still a single strip, not repeated); then apply the
zero-term sentinel rule. -/
def exogFinalAmd (pre suf : String) : String :=
  exogSentinel
    (if pre ++ suf ≠ "" ∧ strLast (pre ++ suf) = some '+' then pystrip (dropLastStr (pre ++ suf))
     else pre ++ suf)

/-- The failure modes `_parse` actually has: the three structural
`ValueError`s, the unpack `ValueError` for repeated brackets, and the
`IndexError` for an empty endogenous or instrument fragment. -/
def knownFailure : ParseError → Prop
  | .indexError m => m = "string index out of range"
  | .valueError m =>
      m = sepMsg ∨ m = bracketMsg ∨ m = unpackMsg ∨
      (∃ b, m = endogMsg b) ∨ (∃ b, m = instrMsg b)

/-- The only aspect of a patsy/pandas `DataFrame` this code inspects is
its column count (`arr.shape[1]`); the numeric content lives in the
external evaluator and is irrelevant to the claims. -/
structure DFrame where
  ncols : Nat
deriving DecidableEq

/-- The external expression evaluator (`patsy.highlevel.dmatrix` applied
to the fixed data source and NA policy of the parser instance): it
receives the formula string and the `eval_env` depth and either returns a
`DataFrame` or fails with a patsy error.  It is external to this
repository and therefore a parameter of the model. -/
def Evaluator : Type := String → Int → Except String DFrame

/-- The mutable state of an `IVFormulaParser` instance after `_parse` has
run: the stored components and the `_eval_env` depth. -/
structure ParserState where
  components : Components
  eval_env : Int
deriving DecidableEq

/-- `IVFormulaParser._empty_check`: `None` when the frame has zero
columns, the frame itself otherwise. -/
def emptyCheck (arr : DFrame) : Option DFrame :=
  if arr.ncols = 0 then none else some arr

/-- The `dependent` property (lines 150-161): evaluate
`"0 + " + components["dependent"]` at the stored depth.  Any evaluator
error propagates unchanged — the property has no handler. -/
def dependentProp (dm : Evaluator) (st : ParserState) : Except String DFrame :=
  dm ("0 + " ++ st.components.dependent) st.eval_env

/-- The `exog` property: evaluate `components["exog"]` (no extra sentinel)
at the stored depth and apply `_empty_check`. -/
def exogProp (dm : Evaluator) (st : ParserState) : Except String (Option DFrame) :=
  (dm st.components.exog st.eval_env).map emptyCheck

/-- The `endog` property: evaluate `"0 + " + components["endog"]` at the
stored depth and apply `_empty_check`. -/
def endogProp (dm : Evaluator) (st : ParserState) : Except String (Option DFrame) :=
  (dm ("0 + " ++ st.components.endog) st.eval_env).map emptyCheck

/-- The `instruments` property: evaluate
`"0 + " + components["instruments"]` at the stored depth and apply
`_empty_check`. -/
def instrumentsProp (dm : Evaluator) (st : ParserState) : Except String (Option DFrame) :=
  (dm ("0 + " ++ st.components.instruments) st.eval_env).map emptyCheck

/-- The batched `data` property (lines 142-148): increment `_eval_env`,
evaluate the four properties left to right at the incremented depth, then
decrement.  A Python exception in any of the four evaluations propagates
immediately, so the decrement is skipped and the returned state keeps the
incremented depth — there is no `try/finally`. -/
def dataProp (dm : Evaluator) (st : ParserState) :
    Except String (DFrame × Option DFrame × Option DFrame × Option DFrame) × ParserState :=
  match dependentProp dm ⟨st.components, st.eval_env + 1⟩ with
  | .error e => (.error e, ⟨st.components, st.eval_env + 1⟩)
  | .ok d =>
    match exogProp dm ⟨st.components, st.eval_env + 1⟩ with
    | .error e => (.error e, ⟨st.components, st.eval_env + 1⟩)
    | .ok ex =>
      match endogProp dm ⟨st.components, st.eval_env + 1⟩ with
      | .error e => (.error e, ⟨st.components, st.eval_env + 1⟩)
      | .ok en =>
        match instrumentsProp dm ⟨st.components, st.eval_env + 1⟩ with
        | .error e => (.error e, ⟨st.components, st.eval_env + 1⟩)
        | .ok ins => (.ok (d, ex, en, ins), ⟨st.components, st.eval_env + 1 - 1⟩)

/-- `Except.isOk` for the result of the batched accessor. -/
def isOkE {ε α : Type} : Except ε α → Bool
  | .ok _ => true
  | .error _ => false

/-- The module-level `PARSING_ERROR` template (lines 11-21) with the four
components formatted in, i.e. `PARSING_ERROR.format(dep, exog, endog,
instr)` — the wrapped diagnostic form the spec describes.  The template is
defined by the source but never applied by any accessor in it. -/
def parsingErrorText (dep exog endog instr : String) : String :=
  "\nConversion of formula blocks to DataFrames using patsy failed.\nThe formula blocks used for conversion were:\n\ndependent: " ++
    dep ++ "\nexogenous: " ++ exog ++ "\nendogenous: " ++ endog ++
    "\ninstruments: " ++ instr ++ "\n\nThe original Patsy error was:\n"

/-- `proj(y, x)` (lines 24-42): the projection of `y` on the column space
of `x`, computed as `x @ (pinv(x) @ y)` unless `x` has zero columns, in
which case `np.zeros_like(y)` is returned.  `np.linalg.pinv` is numpy's
external SVD-based Moore-Penrose pseudo-inverse; it is a parameter of the
model because the claims hold for every choice of it, and machine floats
are idealised as exact rationals. -/
def proj {n p k : Nat} (pinv : Matrix (Fin n) (Fin k) ℚ → Matrix (Fin k) (Fin n) ℚ)
    (y : Matrix (Fin n) (Fin p) ℚ) (x : Matrix (Fin n) (Fin k) ℚ) :
    Matrix (Fin n) (Fin p) ℚ :=
  if k = 0 then 0 else x * (pinv x * y)

/-- `annihilate(y, x)` (lines 45-61): `y - proj(y, x)`. -/
def annihilate {n p k : Nat} (pinv : Matrix (Fin n) (Fin k) ℚ → Matrix (Fin k) (Fin n) ℚ)
    (y : Matrix (Fin n) (Fin p) ℚ) (x : Matrix (Fin n) (Fin k) ℚ) :
    Matrix (Fin n) (Fin p) ℚ :=
  y - proj pinv y x

/-! ## Helper lemmas -/

/-- Python's `strip` is idempotent. -/
theorem pystripList_idem (l : List Char) : pystripList (pystripList l) = pystripList l := by
  have hpre : (l.dropWhile isSpace).rdropWhile isSpace <+: l.dropWhile isSpace :=
    List.rdropWhile_prefix _ _
  have h1 : ((l.dropWhile isSpace).rdropWhile isSpace).dropWhile isSpace
      = (l.dropWhile isSpace).rdropWhile isSpace := by
    rw [List.dropWhile_eq_self_iff]
    intro hl
    have hlen : 0 < (l.dropWhile isSpace).length := lt_of_lt_of_le hl hpre.length_le
    have h0 := List.dropWhile_get_zero_not isSpace l hlen
    simpa [List.get_eq_getElem, hpre.getElem hl] using h0
  show ((pystripList l).dropWhile isSpace).rdropWhile isSpace = pystripList l
  rw [show pystripList l = (l.dropWhile isSpace).rdropWhile isSpace from rfl, h1,
    List.rdropWhile_idempotent]

/-- `pystrip` is idempotent. -/
theorem pystrip_idem (s : String) : pystrip (pystrip s) = pystrip s :=
  congrArg String.mk (pystripList_idem s.data)

/-- Appending the empty string is the identity. -/
theorem strAppend_empty (s : String) : s ++ "" = s := by
  apply String.ext
  simp

/-- String append is associative. -/
theorem strAppend_assoc (a b c : String) : a ++ b ++ c = a ++ (b ++ c) := by
  apply String.ext
  simp

/-- A `plusEdge` failure is exactly the empty-string `IndexError`. -/
theorem plusEdge_error {b : String} {e : ParseError}
    (h : plusEdge b = .error e) : e = .indexError "string index out of range" := by
  unfold plusEdge at h
  split at h
  · injection h with h
    exact h.symm
  · exact Except.noConfusion h

/-- Characterization of a successful three-block parse in terms of the
four stripped fragments. -/
theorem parse3_ok {b0 b1 b2 pre en ins suf : String} {c : Components}
    (h1 : (pysplit '[' b1).map pystrip = [pre, en])
    (h2 : (pysplit ']' b2).map pystrip = [ins, suf])
    (h : parse3 b0 b1 b2 = .ok c) :
    c = ⟨"0 + " ++ pystrip b0, exogFinal pre suf, en, ins⟩ := by
  unfold parse3 at h
  split at h
  · exact Except.noConfusion h
  · split at h
    · rename_i a b heq1
      split at h
      · rename_i a2 b2 heq2
        rw [h1] at heq1
        rw [h2] at heq2
        injection heq1 with ha hb
        injection hb with hb
        injection heq2 with ha2 hb2
        injection hb2 with hb2
        subst ha hb ha2 hb2
        split at h
        · exact Except.noConfusion h
        · exact Except.noConfusion h
        · split at h
          · exact Except.noConfusion h
          · exact Except.noConfusion h
          · injection h with h
            exact h.symm
      · exact Except.noConfusion h
    · exact Except.noConfusion h

/-- The dependent component of any successful three-block parse is the
doubly-stripped first block with the sentinel prefix. -/
theorem parse3_dependent {b0 b1 b2 : String} {c : Components}
    (h : parse3 b0 b1 b2 = .ok c) :
    c.dependent = "0 + " ++ pystrip b0 := by
  unfold parse3 at h
  split at h
  · exact Except.noConfusion h
  · split at h
    · split at h
      · split at h
        · exact Except.noConfusion h
        · exact Except.noConfusion h
        · split at h
          · exact Except.noConfusion h
          · exact Except.noConfusion h
          · injection h with h
            rw [← h]
      · exact Except.noConfusion h
    · exact Except.noConfusion h

/-- Every failure of the three-block branch is a known failure mode. -/
theorem parse3_error {b0 b1 b2 : String} {e : ParseError}
    (h : parse3 b0 b1 b2 = .error e) : knownFailure e := by
  unfold parse3 at h
  split at h
  · injection h with h
    rw [← h]
    exact Or.inr (Or.inl rfl)
  · split at h
    · split at h
      · split at h
        · rename_i heq
          injection h with h
          rw [← h, plusEdge_error heq]
          rfl
        · injection h with h
          rw [← h]
          exact Or.inr (Or.inr (Or.inr (Or.inl ⟨_, rfl⟩)))
        · split at h
          · rename_i heq
            injection h with h
            rw [← h, plusEdge_error heq]
            rfl
          · injection h with h
            rw [← h]
            exact Or.inr (Or.inr (Or.inr (Or.inr ⟨_, rfl⟩)))
          · exact Except.noConfusion h
      · injection h with h
        rw [← h]
        exact Or.inr (Or.inr (Or.inl rfl))
    · injection h with h
      rw [← h]
      exact Or.inr (Or.inr (Or.inl rfl))

/-- The exogenous strip step in the conjunction form used by the amended
formulations. -/
theorem exogStripOne_eq (e : String) :
    exogStripOne e =
      if e ≠ "" ∧ strLast e = some '+' then pystrip (dropLastStr e) else e := by
  unfold exogStripOne
  by_cases h1 : e = "" <;> by_cases h2 : strLast e = some '+' <;> simp [h1, h2]

/-- The source's exogenous merge agrees with the amended description
(unconditional concatenation, single strip of the trailing `+` together
with the whitespace it uncovers, then the sentinel rule). -/
theorem exogFinal_eq_amd (pre suf : String) : exogFinal pre suf = exogFinalAmd pre suf := by
  unfold exogFinal exogFinalAmd
  rw [exogStripOne_eq]
  by_cases hs : suf = ""
  · subst hs
    rw [strAppend_empty]
    simp
  · simp [hs]

/-! ## Claim theorems -/

/-- Claim C1, counterexample: for `"y ~ x1 + [x2 ~ z1 + z2] + x3"` parsing
succeeds with the exogenous component `"0 + x1 ++ x3"`: the merged
expression `"x1 ++ x3"` does contain a stray `+` in the middle — splitting
it on `+` leaves an empty term between `x1` and `x3` — because the
prefix's trailing `+` and the suffix's leading `+` are both kept.  This
refutes the claimed "no `+` at the start, middle, or end of the merged
expression". -/
theorem exog_merge_stray_plus_cex :
    parseFormula "y ~ x1 + [x2 ~ z1 + z2] + x3" =
      .ok ⟨"0 + y", "0 + x1 ++ x3", "x2", "z1 + z2"⟩ ∧
    "" ∈ (pysplit '+' "x1 ++ x3").map pystrip := by
  decide

/-- Claim C1, amended: for `"y ~ x1 + [x2 ~ z1 + z2] + x3"` parsing
succeeds; `endog` is `"x2"` and `instruments` is `"z1 + z2"` as claimed;
the exogenous component merges the `x1` and `x3` terms with no stray `+`
at the start or end, but with a doubled `+` (an empty term) at the merge
point, yielding `"0 + x1 ++ x3"`. -/
theorem exog_merge_doubled_plus :
    parseFormula "y ~ x1 + [x2 ~ z1 + z2] + x3" =
      .ok ⟨"0 + y", "0 + x1 ++ x3", "x2", "z1 + z2"⟩ ∧
    (pysplit '+' "x1 ++ x3").map pystrip = ["x1", "", "x3"] := by
  decide

/-- Claim C2, counterexample: the formula `"y ~ x [ ~ z]"` has an empty
endogenous fragment between the brackets, and parser construction fails
with the out-of-bounds string-index error (`endog[0]` on the empty
string), not with a structural `ValueError`. -/
theorem empty_endog_index_error_cex :
    parseFormula "y ~ x [ ~ z]" = .error (.indexError "string index out of range") := by
  decide

/-- Claim C2, amended: every construction failure is one of the known
modes — the three structural `ValueError`s (separator count, missing
bracket delimiter, leading/trailing `+` in a named non-empty block), the
unpack `ValueError` for repeated brackets, or the `IndexError` raised when
the endogenous or instrument fragment between the brackets is empty. -/
theorem parse_failure_modes (f : String) (e : ParseError)
    (h : parseFormula f = .error e) : knownFailure e := by
  unfold parseFormula at h
  split at h
  · exact Except.noConfusion h
  · exact parse3_error h
  · injection h with h
    rw [← h]
    exact Or.inl rfl

/-- Witness for `parse_failure_modes` at the concrete formula `"abc"`. -/
theorem parse_failure_modes_wit :
    parseFormula "abc" = .error (.valueError sepMsg) ∧
    knownFailure (.valueError sepMsg) :=
  ⟨by decide, parse_failure_modes "abc" (.valueError sepMsg) (by decide)⟩

/-- Claim C3, counterexample: for `"y ~ x1 + [x2 ~ z1]"` the merged
exogenous expression is the fragment `"x1 +"` (suffix empty); the source
stores `"0 + x1"` — the slice `exog[:-1]` is followed by `.strip()`, so
the whitespace before the stripped `+` is removed as well — while the
claimed "strip exactly that one trailing `+` character" yields
`"0 + x1 "`, a different string. -/
theorem exog_strip_whitespace_cex :
    (pysplit '[' "x1 + [x2").map pystrip = ["x1 +", "x2"] ∧
    (pysplit ']' "z1]").map pystrip = ["z1", ""] ∧
    parseFormula "y ~ x1 + [x2 ~ z1]" = .ok ⟨"0 + y", "0 + x1", "x2", "z1"⟩ ∧
    exogFinalClaimLit "x1 +" "" = "0 + x1 " ∧
    ("0 + x1" : String) ≠ "0 + x1 " := by
  decide

/-- Claim C3, amended: for every 3-piece formula that passes the bracket
and `+` checks, the stored exogenous value is computed by concatenating
prefix and suffix; if the combined expression is non-empty and ends with
`+`, exactly that one trailing `+` character is stripped (not repeatedly)
together with the whitespace this uncovers; the stored value is the
zero-term sentinel `"0"` if the expression is then empty, and otherwise
the sentinel prefixed to it (`"0 + " + expression`). -/
theorem exog_final_amended (f b0 b1 b2 pre en ins suf : String) (c : Components)
    (hs : pysplit '~' (pystrip f) = [b0, b1, b2])
    (h1 : (pysplit '[' (pystrip b1)).map pystrip = [pre, en])
    (h2 : (pysplit ']' (pystrip b2)).map pystrip = [ins, suf])
    (h : parseFormula f = .ok c) :
    c.exog = exogFinalAmd pre suf := by
  unfold parseFormula at h
  rw [hs] at h
  have h' : parse3 (pystrip b0) (pystrip b1) (pystrip b2) = .ok c := h
  rw [parse3_ok h1 h2 h']
  exact exogFinal_eq_amd pre suf

/-- Witness for `exog_final_amended` at `"y ~ x1 + [x2 ~ z1]"`. -/
theorem exog_final_amended_wit :
    exogFinalAmd "x1 +" "" = "0 + x1" ∧
    Components.exog ⟨"0 + y", "0 + x1", "x2", "z1"⟩ = exogFinalAmd "x1 +" "" :=
  ⟨by decide,
    exog_final_amended "y ~ x1 + [x2 ~ z1]" "y " " x1 + [x2 " " z1]" "x1 +" "x2" "z1" ""
      ⟨"0 + y", "0 + x1", "x2", "z1"⟩ (by decide) (by decide) (by decide) (by decide)⟩

/-- Claim C4: every formula whose split on `~` yields exactly two pieces
parses successfully, with the dependent component the trimmed first piece
(stored behind the `"0 + "` sentinel), the exogenous component exactly the
trimmed second piece, and the endogenous and instrument components both
the zero-term sentinel `"0"`. -/
theorem two_block_parse (f b0 b1 : String)
    (h : pysplit '~' (pystrip f) = [b0, b1]) :
    parseFormula f = .ok ⟨"0 + " ++ pystrip b0, pystrip b1, "0", "0"⟩ := by
  unfold parseFormula
  rw [h]

/-- Witness for `two_block_parse` at `"y ~ x"`. -/
theorem two_block_parse_wit :
    pysplit '~' (pystrip "y ~ x") = ["y ", " x"] ∧
    parseFormula "y ~ x" = .ok ⟨"0 + y", "x", "0", "0"⟩ :=
  ⟨by decide, two_block_parse "y ~ x" "y " " x" (by decide)⟩

/-- Claim C5: every formula whose split on `~` yields a piece count other
than 2 or 3 (one piece when there is no separator, four or more pieces
when there are three or more separators) makes construction fail with the
structural `ValueError` about the separator count. -/
theorem sep_count_error (f : String)
    (h2 : (pysplit '~' (pystrip f)).length ≠ 2)
    (h3 : (pysplit '~' (pystrip f)).length ≠ 3) :
    parseFormula f = .error (.valueError sepMsg) := by
  unfold parseFormula
  rcases hl : pysplit '~' (pystrip f) with _ | ⟨a, _ | ⟨b, _ | ⟨c, _ | ⟨d, t⟩⟩⟩⟩
  · rfl
  · rfl
  · rw [hl] at h2
    exact absurd rfl h2
  · rw [hl] at h3
    exact absurd rfl h3
  · rfl

/-- Witness for `sep_count_error` at `"a ~ b ~ c ~ d"` (three separators,
four pieces). -/
theorem sep_count_error_wit :
    (pysplit '~' (pystrip "a ~ b ~ c ~ d")).length = 4 ∧
    parseFormula "a ~ b ~ c ~ d" = .error (.valueError sepMsg) :=
  ⟨by decide, sep_count_error "a ~ b ~ c ~ d" (by decide) (by decide)⟩

/-- Claim C6: `proj(y, x)` with `x` having zero columns returns the
all-zero matrix of `y`'s shape, for every choice of the pseudo-inverse
routine — i.e. no pseudo-inverse is attempted. -/
theorem proj_zero_columns {n p : Nat}
    (pinv : Matrix (Fin n) (Fin 0) ℚ → Matrix (Fin 0) (Fin n) ℚ)
    (y : Matrix (Fin n) (Fin p) ℚ) (x : Matrix (Fin n) (Fin 0) ℚ) :
    proj pinv y x = 0 := by
  simp [proj]

/-- Claim C7: for conforming matrices, `annihilate(y, x)` is definitionally
`y - proj(y, x)`, and consequently `proj(y, x) + annihilate(y, x) = y`
exactly — for every choice of the pseudo-inverse routine, machine floats
idealised as exact rationals. -/
theorem annihilate_complement {n p k : Nat}
    (pinv : Matrix (Fin n) (Fin k) ℚ → Matrix (Fin k) (Fin n) ℚ)
    (y : Matrix (Fin n) (Fin p) ℚ) (x : Matrix (Fin n) (Fin k) ℚ) :
    annihilate pinv y x = y - proj pinv y x ∧
    proj pinv y x + annihilate pinv y x = y := by
  refine ⟨rfl, ?_⟩
  unfold annihilate
  abel

/-- Claim C8, counterexample: with an evaluator that fails, the batched
`data` accessor started at depth 2 returns with the stored depth equal to
3, not restored to 2 — the decrement is skipped because the exception
propagates and there is no `try/finally`. -/
theorem data_env_not_restored_cex :
    dataProp (fun _ _ => .error "patsy failure") ⟨⟨"0 + y", "x", "0", "0"⟩, 2⟩ =
      (.error "patsy failure", ⟨⟨"0 + y", "x", "0", "0"⟩, 3⟩) ∧
    ((3 : Int) ≠ 2) := by
  exact ⟨rfl, by decide⟩

/-- Claim C8, amended: the batched `data` accessor evaluates all four
fields at the stored depth incremented by one; when all four evaluations
succeed the stored depth is restored to its pre-call value, but when an
evaluation fails the error propagates with the stored depth left
incremented by one (it is not restored). -/
theorem data_env_behavior (dm : Evaluator) (st : ParserState) :
    (dataProp dm st).2.components = st.components ∧
    (isOkE (dataProp dm st).1 = true → (dataProp dm st).2.eval_env = st.eval_env) ∧
    (isOkE (dataProp dm st).1 = false → (dataProp dm st).2.eval_env = st.eval_env + 1) ∧
    (∀ d ex en ins, (dataProp dm st).1 = .ok (d, ex, en, ins) →
      dependentProp dm ⟨st.components, st.eval_env + 1⟩ = .ok d ∧
      exogProp dm ⟨st.components, st.eval_env + 1⟩ = .ok ex ∧
      endogProp dm ⟨st.components, st.eval_env + 1⟩ = .ok en ∧
      instrumentsProp dm ⟨st.components, st.eval_env + 1⟩ = .ok ins) ∧
    (∀ e, (dataProp dm st).1 = .error e →
      dependentProp dm ⟨st.components, st.eval_env + 1⟩ = .error e ∨
      exogProp dm ⟨st.components, st.eval_env + 1⟩ = .error e ∨
      endogProp dm ⟨st.components, st.eval_env + 1⟩ = .error e ∨
      instrumentsProp dm ⟨st.components, st.eval_env + 1⟩ = .error e) := by
  rcases h1 : dependentProp dm ⟨st.components, st.eval_env + 1⟩ with e1 | d1
  · have hD : dataProp dm st = (.error e1, ⟨st.components, st.eval_env + 1⟩) := by
      unfold dataProp
      rw [h1]
    rw [hD]
    refine ⟨rfl, fun hc => by simp [isOkE] at hc, fun _ => rfl,
      fun d ex en ins hc => Except.noConfusion hc, fun e he => ?_⟩
    injection he with he
    subst he
    exact Or.inl rfl
  · rcases h2 : exogProp dm ⟨st.components, st.eval_env + 1⟩ with e2 | ex2
    · have hD : dataProp dm st = (.error e2, ⟨st.components, st.eval_env + 1⟩) := by
        unfold dataProp
        rw [h1, h2]
      rw [hD]
      refine ⟨rfl, fun hc => by simp [isOkE] at hc, fun _ => rfl,
        fun d ex en ins hc => Except.noConfusion hc, fun e he => ?_⟩
      injection he with he
      subst he
      exact Or.inr (Or.inl rfl)
    · rcases h3 : endogProp dm ⟨st.components, st.eval_env + 1⟩ with e3 | en3
      · have hD : dataProp dm st = (.error e3, ⟨st.components, st.eval_env + 1⟩) := by
          unfold dataProp
          rw [h1, h2, h3]
        rw [hD]
        refine ⟨rfl, fun hc => by simp [isOkE] at hc, fun _ => rfl,
          fun d ex en ins hc => Except.noConfusion hc, fun e he => ?_⟩
        injection he with he
        subst he
        exact Or.inr (Or.inr (Or.inl rfl))
      · rcases h4 : instrumentsProp dm ⟨st.components, st.eval_env + 1⟩ with e4 | ins4
        · have hD : dataProp dm st = (.error e4, ⟨st.components, st.eval_env + 1⟩) := by
            unfold dataProp
            rw [h1, h2, h3, h4]
          rw [hD]
          refine ⟨rfl, fun hc => by simp [isOkE] at hc, fun _ => rfl,
            fun d ex en ins hc => Except.noConfusion hc, fun e he => ?_⟩
          injection he with he
          subst he
          exact Or.inr (Or.inr (Or.inr rfl))
        · have hD : dataProp dm st =
              (.ok (d1, ex2, en3, ins4), ⟨st.components, st.eval_env + 1 - 1⟩) := by
            unfold dataProp
            rw [h1, h2, h3, h4]
          rw [hD]
          refine ⟨rfl, fun _ => ?_, fun hc => by simp [isOkE] at hc,
            fun d ex en ins hc => ?_, fun e he => Except.noConfusion he⟩
          · show st.eval_env + 1 - 1 = st.eval_env
            omega
          · injection hc with hc
            simp only [Prod.mk.injEq] at hc
            obtain ⟨hd, hex, hen, hins⟩ := hc
            subst hd hex hen hins
            exact ⟨rfl, rfl, rfl, rfl⟩

/-- Witness for `data_env_behavior`: with an always-succeeding evaluator
the batched accessor restores the depth to its pre-call value 2. -/
theorem data_env_behavior_wit :
    isOkE (dataProp (fun _ _ => .ok ⟨1⟩) ⟨⟨"0 + y", "x", "0", "0"⟩, 2⟩).1 = true ∧
    (dataProp (fun _ _ => .ok ⟨1⟩) ⟨⟨"0 + y", "x", "0", "0"⟩, 2⟩).2.eval_env = 2 :=
  ⟨rfl, (data_env_behavior (fun _ _ => .ok ⟨1⟩) ⟨⟨"0 + y", "x", "0", "0"⟩, 2⟩).2.1 rfl⟩

/-- Claim C9, counterexample: with an evaluator failing with the raw error
`"E0"`, the `dependent` accessor surfaces exactly `"E0"` — not the
`PARSING_ERROR` diagnostic form that would echo the four sub-expression
strings.  The evaluator error propagates without any wrapping. -/
theorem dependent_error_unwrapped_cex :
    dependentProp (fun _ _ => .error "E0") ⟨⟨"0 + y", "x", "0", "0"⟩, 2⟩ = .error "E0" ∧
    ("E0" : String) ≠ parsingErrorText "0 + y" "x" "0" "0" ++ "E0" := by
  exact ⟨rfl, by decide⟩

/-- Claim C9, amended: the source defines the `PARSING_ERROR` diagnostic
template (which echoes all four sub-expression strings before the
underlying evaluator error), but none of the four accessors applies it: an
evaluator failure propagates out of each accessor as exactly the raw
evaluator error, unwrapped. -/
theorem accessor_error_passthrough (dm : Evaluator) (st : ParserState) (e : String) :
    (dm ("0 + " ++ st.components.dependent) st.eval_env = .error e →
      dependentProp dm st = .error e) ∧
    (dm st.components.exog st.eval_env = .error e → exogProp dm st = .error e) ∧
    (dm ("0 + " ++ st.components.endog) st.eval_env = .error e →
      endogProp dm st = .error e) ∧
    (dm ("0 + " ++ st.components.instruments) st.eval_env = .error e →
      instrumentsProp dm st = .error e) := by
  refine ⟨fun h => h, fun h => ?_, fun h => ?_, fun h => ?_⟩
  · unfold exogProp
    rw [h]
    rfl
  · unfold endogProp
    rw [h]
    rfl
  · unfold instrumentsProp
    rw [h]
    rfl

/-- Witness for `accessor_error_passthrough` with a concrete failing
evaluator. -/
theorem accessor_error_passthrough_wit :
    dependentProp (fun _ _ => .error "E1") ⟨⟨"0 + y", "x", "0", "0"⟩, 2⟩ = .error "E1" :=
  (accessor_error_passthrough (fun _ _ => .error "E1") ⟨⟨"0 + y", "x", "0", "0"⟩, 2⟩ "E1").1 rfl

/-- Claim C10: for every successfully parsed formula, the expression
string the `dependent` accessor hands to the external evaluator is
`"0 + 0 + "` followed by the trimmed first piece of the formula — the
sentinel is prepended once when the components are stored at parse time
and a second time inside the accessor. -/
theorem dependent_double_sentinel (f : String) (c : Components) (dm : Evaluator) (env : Int)
    (h : parseFormula f = .ok c) :
    dependentProp dm ⟨c, env⟩ =
      dm ("0 + 0 + " ++ pystrip ((pysplit '~' (pystrip f)).headI)) env := by
  have hdep : c.dependent = "0 + " ++ pystrip ((pysplit '~' (pystrip f)).headI) := by
    unfold parseFormula at h
    split at h
    · rename_i b0 b1 heq
      injection h with h
      rw [← h, heq]
      rfl
    · rename_i b0 b1 b2 heq
      rw [heq, parse3_dependent h]
      show "0 + " ++ pystrip (pystrip b0) = _
      rw [pystrip_idem]
      rfl
    · exact Except.noConfusion h
  show dm ("0 + " ++ c.dependent) env = _
  rw [hdep, (by decide : ("0 + 0 + " : String) = "0 + " ++ "0 + "), strAppend_assoc]

/-- Witness for `dependent_double_sentinel` at `"y ~ x"`. -/
theorem dependent_double_sentinel_wit :
    parseFormula "y ~ x" = .ok ⟨"0 + y", "x", "0", "0"⟩ ∧
    dependentProp (fun _ _ => .ok ⟨1⟩) ⟨⟨"0 + y", "x", "0", "0"⟩, 2⟩ =
      (fun _ _ => (.ok ⟨1⟩ : Except String DFrame))
        ("0 + 0 + " ++ pystrip ((pysplit '~' (pystrip "y ~ x")).headI)) 2 :=
  ⟨by decide,
    dependent_double_sentinel "y ~ x" ⟨"0 + y", "x", "0", "0"⟩ (fun _ _ => .ok ⟨1⟩) 2
      (by decide)⟩

end LM
